import Mathlib

/-!
Verification of the role-resolution core of the RAYN license-management
dashboard.

The embedding follows `src/lib/roles.ts` (the variant carrying
`isRaynAdmin` / `isClientAdmin` / `customer_id`), `src/hooks/useUserRole.ts`,
`src/components/RoleGuard.tsx` and `src/contexts/DebugContext.tsx`.

The resolver `getUserRole` talks to two backing stores through the hosted
query API; each query can end in four ways, which we reify as `Outcome`:

* `found a`   — the `.single()` call returned a row `a`;
* `notFound`  — the query returned error code `PGRST116` (no row), the
                normal "no record" outcome;
* `errValue`  — the query returned any other error value (transport or
                query failure surfaced as a value; `data` is null);
* `thrown`    — the awaited promise rejected, which transfers control to
                the `try { ... } catch` wrapper of `getUserRole`.

A database environment `Env` gives, per user id, the outcome of the
`user_roles` query (filtered to `role = 'admin'`, so the row carries the
role column) and of the `product_license_assignments` query, and per
license id the outcome of the `customer_product_licenses` lookup.
-/

inductive AppRole where
  | admin
  | moderator
  | manager
  | user
deriving DecidableEq, Repr

inductive RoleSource where
  | user_roles
  | product_license_assignments
  | default
deriving DecidableEq, Repr

/-- The `UserRole` interface of `src/lib/roles.ts`. -/
structure UserRole where
  role : AppRole
  source : RoleSource
  isRaynAdmin : Bool
  isClientAdmin : Bool
  customer_id : Option String
deriving DecidableEq, Repr

/-- Row shape of the `product_license_assignments` query:
`select access_level, license_id`.  Both columns are nullable. -/
structure AssignmentRow where
  access_level : Option AppRole
  license_id : Option String
deriving DecidableEq, Repr

inductive Outcome (α : Type) where
  | found (a : α)
  | notFound
  | errValue
  | thrown
deriving DecidableEq, Repr

/-- The two backing stores plus the secondary license → customer lookup,
as seen through the query API. -/
structure Env where
  user_roles : String → Outcome AppRole
  product_license_assignments : String → Outcome AssignmentRow
  customer_product_licenses : String → Outcome String

/-- The default descriptor returned when neither store yields a record,
and by the `catch` branch of `getUserRole`. -/
def defaultRole : UserRole :=
  ⟨.user, .default, false, false, none⟩

/-- The secondary lookup block of `getUserRole` (roles.ts lines 61-72):
run only when `license_id` is non-null; a found row yields its
`customer_id`, a missing row or an error value leaves `customer_id`
undefined, and a rejected promise (`thrown`) escapes to the outer catch,
which we signal with `Except.error`. -/
def resolveScope (o3 : String → Outcome String) (licenseId : Option String) :
    Except Unit (Option String) :=
  match licenseId with
  | none => .ok none
  | some lid =>
    match o3 lid with
    | .found c => .ok (some c)
    | .notFound => .ok none
    | .errValue => .ok none
    | .thrown => .error ()

/-- The license-assignment step of `getUserRole` (roles.ts lines 44-89):
reached when the primary step did not return a RAYN admin.  A found
assignment with a non-null `access_level` produces the scoped descriptor;
otherwise the default descriptor is returned.  A rejected promise at this
step or inside the secondary lookup lands in the outer catch, which also
returns the default descriptor. -/
def fromAssignments (o2 : Outcome AssignmentRow) (o3 : String → Outcome String) :
    UserRole :=
  match o2 with
  | .found a =>
    match a.access_level with
    | some al =>
      match resolveScope o3 a.license_id with
      | .ok cid => ⟨al, .product_license_assignments, false, decide (al = .admin), cid⟩
      | .error _ => defaultRole
    | none => defaultRole
  | .notFound => defaultRole
  | .errValue => defaultRole
  | .thrown => defaultRole

/-- `getUserRole` of `src/lib/roles.ts` (lines 20-101), as a function of
the outcomes of its three queries.  Step 1 checks the `user_roles` store
for an admin row (the query itself filters on `role = 'admin'`, and the
code re-checks `userRoles.role === 'admin'`); on success it returns the
RAYN-admin descriptor without consulting the assignment store.  An error
value at step 1 is logged and control falls through to step 2 exactly as
for `notFound`; a rejected promise is caught and yields the default
descriptor. -/
def resolveRole (o1 : Outcome AppRole) (o2 : Outcome AssignmentRow)
    (o3 : String → Outcome String) : UserRole :=
  match o1 with
  | .found r =>
    if r = .admin then ⟨.admin, .user_roles, true, false, none⟩
    else fromAssignments o2 o3
  | .notFound => fromAssignments o2 o3
  | .errValue => fromAssignments o2 o3
  | .thrown => defaultRole

/-- `getUserRole(userId)` against a database environment. -/
def getUserRole (env : Env) (userId : String) : UserRole :=
  resolveRole (env.user_roles userId)
    (env.product_license_assignments userId)
    env.customer_product_licenses

/-- `hasRole` of roles.ts: resolve, then compare the role field. -/
def hasRole (env : Env) (userId : String) (requiredRole : AppRole) : Bool :=
  decide ((getUserRole env userId).role = requiredRole)

/-- `isRaynAdmin` of roles.ts. -/
def isRaynAdmin (env : Env) (userId : String) : Bool :=
  (getUserRole env userId).isRaynAdmin

/-- `isClientAdmin` of roles.ts. -/
def isClientAdmin (env : Env) (userId : String) : Bool :=
  (getUserRole env userId).isClientAdmin

/-- `isAdmin` of roles.ts: RAYN or client admin. -/
def isAdmin (env : Env) (userId : String) : Bool :=
  let r := getUserRole env userId
  r.isRaynAdmin || r.isClientAdmin

/-- Modelled from the spec: `isManager` is imported by
`src/hooks/useUserRole.ts` from `@/lib/roles` but its definition is
absent from the `roles.ts` in the repository; following the spec's
manager tier and the pattern of the sibling `hasRole` checks, it tests
the resolved role for `manager`. -/
def isManager (env : Env) (userId : String) : Bool :=
  decide ((getUserRole env userId).role = .manager)

/-!
Session Holder: `src/hooks/useUserRole.ts`.

React state of the hook: `userRole`, `actualUserRole`, `loading`,
`error`.  `fetchUserRole` is an async function; its writes before the
`await getUserRole(...)` happen when the fetch is issued, and its writes
after the `await` happen when the response arrives, so we split it into
`fetchStart` (lines 22-23: `setLoading(true); setError(null)`) and
`fetchApply` (lines 25-31: `setActualUserRole(role); setUserRole(role);
setLoading(false)`); overlapping fetches interleave these steps.
-/

structure SessionState where
  userRole : Option UserRole
  actualUserRole : Option UserRole
  loading : Bool
  error : Option String
deriving DecidableEq, Repr

/-- The writes `fetchUserRole` performs before its `await`. -/
def fetchStart (s : SessionState) : SessionState :=
  ⟨s.userRole, s.actualUserRole, true, none⟩

/-- The writes `fetchUserRole` performs when a response `r` arrives:
both role fields are set to `r` and `loading` is cleared.  There is no
request token, so these writes are applied in response-arrival order. -/
def fetchApply (s : SessionState) (r : UserRole) : SessionState :=
  ⟨some r, some r, false, s.error⟩

/-- One complete, non-overlapped run of `fetchUserRole` (lines 14-33).
When no user id is present (lines 15-19) it sets `userRole` to null and
`loading` to false and returns without calling the resolver; otherwise it
runs start and apply around one resolver call.  The second component
counts resolver invocations. -/
def fetchUserRole (uid : Option String) (env : Env) (s : SessionState) :
    SessionState × Nat :=
  match uid with
  | none => (⟨none, s.actualUserRole, false, s.error⟩, 0)
  | some u => (fetchApply (fetchStart s) (getUserRole env u), 1)

/-- `effectiveRole` of the hook (line 73): `isDebugMode` is
`debugRole !== null` (DebugContext.tsx line 29), and the hook returns the
debug descriptor in place of the resolved one while it is set. -/
def effectiveRole (debugRole : Option UserRole) (s : SessionState) :
    Option UserRole :=
  match debugRole with
  | some d => some d
  | none => s.userRole

/-- `checkRole` of the hook (lines 41-44): false without any store query
when no user id is present, else `hasRole`.  The second component counts
resolver invocations. -/
def checkRole (uid : Option String) (requiredRole : AppRole) (env : Env) :
    Bool × Nat :=
  match uid with
  | none => (false, 0)
  | some u => (hasRole env u requiredRole, 1)

/-- `checkIsAdmin` of the hook (lines 47-50). -/
def checkIsAdmin (uid : Option String) (env : Env) : Bool × Nat :=
  match uid with
  | none => (false, 0)
  | some u => (isAdmin env u, 1)

/-- `checkIsManager` of the hook (lines 53-56). -/
def checkIsManager (uid : Option String) (env : Env) : Bool × Nat :=
  match uid with
  | none => (false, 0)
  | some u => (isManager env u, 1)

/-- `checkIsRaynAdmin` of the hook (lines 59-63). -/
def checkIsRaynAdmin (uid : Option String) (env : Env) : Bool × Nat :=
  match uid with
  | none => (false, 0)
  | some u => (isRaynAdmin env u, 1)

/-- `checkIsClientAdmin` of the hook (lines 66-70). -/
def checkIsClientAdmin (uid : Option String) (env : Env) : Bool × Nat :=
  match uid with
  | none => (false, 0)
  | some u => (isClientAdmin env u, 1)

/-!
Capability flags and the Access Guard.

The hook derives (useUserRole.ts lines 86-90) `isAdmin` as
`isRaynAdmin || isClientAdmin` and `isManager` as `role === 'manager'`
from the effective descriptor.  `RoleGuard.tsx` switches on the required
role and renders the protected children exactly when the matching flag
combination holds.
-/

/-- The hook's derived `isAdmin` flag (line 86). -/
def hookIsAdmin (d : UserRole) : Bool :=
  d.isRaynAdmin || d.isClientAdmin

/-- The hook's derived `isManager` flag (line 89). -/
def hookIsManager (d : UserRole) : Bool :=
  decide (d.role = .manager)

/-- The `hasAccess` switch of `RoleGuard` (RoleGuard.tsx lines 34-45).
The `admin`, `moderator` and `user` cases are embedded from the guard in
the repository.  The `manager` case is modelled from the spec: the
four-tier guard (`ManagerOrHigher`) is referenced by `src/pages/Index.tsx`
and documented in `ROLE_SYSTEM.md` but its definition is absent from the
source tree; per the spec, `managerOrAbove` is administrator-or-manager,
mirroring the structure of the present `moderator` case. -/
def hasAccess (requiredRole : AppRole) (d : UserRole) : Bool :=
  match requiredRole with
  | .admin => hookIsAdmin d
  | .moderator => hookIsAdmin d || decide (d.role = .moderator)
  | .manager => hookIsAdmin d || hookIsManager d
  | .user => true

inductive GuardOutput where
  | loadingView
  | fallback
  | children
deriving DecidableEq, Repr

/-- The render decision of `RoleGuard` (RoleGuard.tsx lines 20-52):
loading placeholder while loading (unless suppressed), fallback when no
descriptor is held, otherwise children exactly when `hasAccess` holds. -/
def roleGuard (requiredRole : AppRole) (showLoading : Bool) (loading : Bool)
    (userRole : Option UserRole) : GuardOutput :=
  if loading && showLoading then .loadingView
  else
    match userRole with
    | none => .fallback
    | some d => if hasAccess requiredRole d then .children else .fallback

/-!
Concrete database environments used by witnesses and counterexamples.
-/

/-- A user with an admin row in `user_roles` and also a license
assignment (which must be ignored by priority). -/
def envPrimaryAdmin : Env :=
  ⟨fun _ => .found .admin, fun _ => .found ⟨some .user, some "L1"⟩,
    fun _ => .found "org-1"⟩

/-- No admin row; one assignment with `access_level = 'admin'` whose
license belongs to organization `org-9`. -/
def envClientAdmin : Env :=
  ⟨fun _ => .notFound, fun _ => .found ⟨some .admin, some "L1"⟩,
    fun _ => .found "org-9"⟩

/-- No rows in either store. -/
def envEmpty : Env :=
  ⟨fun _ => .notFound, fun _ => .notFound, fun _ => .notFound⟩

/-- A manager assignment whose license → organization lookup returns an
error value. -/
def envScopeErr : Env :=
  ⟨fun _ => .notFound, fun _ => .found ⟨some .manager, some "L1"⟩,
    fun _ => .errValue⟩

/-- A manager assignment whose license → organization lookup throws. -/
def envScopeThrown : Env :=
  ⟨fun _ => .notFound, fun _ => .found ⟨some .manager, some "L1"⟩,
    fun _ => .thrown⟩

/-- A manager assignment with a successful organization lookup. -/
def envManager : Env :=
  ⟨fun _ => .notFound, fun _ => .found ⟨some .manager, some "L1"⟩,
    fun _ => .found "org-1"⟩

/-!
Helper lemmas shared by the claim theorems.
-/

/-- Every descriptor the resolver can produce has one of three shapes:
the RAYN-admin descriptor, an assignment-derived descriptor, or the
default descriptor. -/
theorem resolveRole_shape (o1 : Outcome AppRole) (o2 : Outcome AssignmentRow)
    (o3 : String → Outcome String) :
    resolveRole o1 o2 o3 = ⟨.admin, .user_roles, true, false, none⟩ ∨
    (∃ al cid, resolveRole o1 o2 o3 =
      ⟨al, .product_license_assignments, false, decide (al = .admin), cid⟩) ∨
    resolveRole o1 o2 o3 = defaultRole := by
  have hfa : fromAssignments o2 o3 = defaultRole ∨
      ∃ al cid, fromAssignments o2 o3 =
        ⟨al, .product_license_assignments, false, decide (al = .admin), cid⟩ := by
    cases o2 with
    | found a =>
      cases ha : a.access_level with
      | none => left; simp [fromAssignments, ha]
      | some al =>
        cases hs : resolveScope o3 a.license_id with
        | ok cid => right; exact ⟨al, cid, by simp [fromAssignments, ha, hs]⟩
        | error e => left; simp [fromAssignments, ha, hs]
    | notFound => left; rfl
    | errValue => left; rfl
    | thrown => left; rfl
  cases o1 with
  | found r =>
    by_cases hr : r = AppRole.admin
    · left; simp [resolveRole, hr]
    · rcases hfa with h | ⟨al, cid, h⟩
      · right; right; simp [resolveRole, hr, h]
      · right; left; exact ⟨al, cid, by simp [resolveRole, hr, h]⟩
  | notFound =>
    rcases hfa with h | ⟨al, cid, h⟩
    · right; right; exact h
    · right; left; exact ⟨al, cid, h⟩
  | errValue =>
    rcases hfa with h | ⟨al, cid, h⟩
    · right; right; exact h
    · right; left; exact ⟨al, cid, h⟩
  | thrown => right; right; rfl

/-- The same shape statement phrased for `getUserRole`. -/
theorem getUserRole_shape (env : Env) (uid : String) :
    getUserRole env uid = ⟨.admin, .user_roles, true, false, none⟩ ∨
    (∃ al cid, getUserRole env uid =
      ⟨al, .product_license_assignments, false, decide (al = .admin), cid⟩) ∨
    getUserRole env uid = defaultRole :=
  resolveRole_shape (env.user_roles uid) (env.product_license_assignments uid)
    env.customer_product_licenses

/-- An error value from the secondary lookup is indistinguishable from a
missing row: both leave `customer_id` undefined. -/
theorem fromAssignments_sec_err (o2 : Outcome AssignmentRow) :
    fromAssignments o2 (fun _ => Outcome.errValue) =
      fromAssignments o2 (fun _ => Outcome.notFound) := by
  cases o2 with
  | found a =>
    obtain ⟨al, lid⟩ := a
    cases al <;> cases lid <;> rfl
  | notFound => rfl
  | errValue => rfl
  | thrown => rfl

/-- A rejected promise in the secondary lookup either changes nothing
(when no lookup runs) or lands in the catch and yields the default. -/
theorem fromAssignments_sec_thrown (o2 : Outcome AssignmentRow) :
    fromAssignments o2 (fun _ => Outcome.thrown) =
      fromAssignments o2 (fun _ => Outcome.notFound) ∨
    fromAssignments o2 (fun _ => Outcome.thrown) = defaultRole := by
  cases o2 with
  | found a =>
    obtain ⟨al, lid⟩ := a
    cases al with
    | none => left; rfl
    | some x =>
      cases lid with
      | none => left; rfl
      | some l => right; rfl
  | notFound => left; rfl
  | errValue => left; rfl
  | thrown => left; rfl

/-- With `loading` settled false, the guard renders the children exactly
when `hasAccess` holds, the fallback otherwise. -/
theorem roleGuard_render (req : AppRole) (sl : Bool) (d : UserRole) :
    roleGuard req sl false (some d) =
      (if hasAccess req d then GuardOutput.children else GuardOutput.fallback) := by
  simp [roleGuard]

/-!
Claim theorems.
-/

/-- C1: whenever the `user_roles` store has an admin record for the user,
`getUserRole` returns the RAYN-admin descriptor — role `admin`, source
`user_roles`, `isRaynAdmin` true, `isClientAdmin` false, `customer_id`
absent — regardless of any license-assignment rows, which are never
consulted by the short-circuit. -/
theorem primary_admin_wins (env : Env) (uid : String)
    (h : env.user_roles uid = .found .admin) :
    getUserRole env uid = ⟨.admin, .user_roles, true, false, none⟩ := by
  simp [getUserRole, h, resolveRole]

theorem primary_admin_wins_witness :
    getUserRole envPrimaryAdmin "u1" = ⟨.admin, .user_roles, true, false, none⟩ :=
  primary_admin_wins envPrimaryAdmin "u1" rfl

/-- C2: the resolver is a total function of the three query outcomes —
it always produces one of the three well-formed descriptor shapes — and
every failure degrades safely: an error value at either store step
behaves exactly as a missing record at that step, a rejected promise
yields the default descriptor (or, at the assignment step, coincides with
the missing-record result), and a failing secondary lookup either matches
the missing-row behavior or degrades to the default. -/
theorem resolver_error_degrades (o1 : Outcome AppRole)
    (o2 : Outcome AssignmentRow) (o3 : String → Outcome String) :
    (resolveRole o1 o2 o3 = ⟨.admin, .user_roles, true, false, none⟩ ∨
      (∃ al cid, resolveRole o1 o2 o3 =
        ⟨al, .product_license_assignments, false, decide (al = .admin), cid⟩) ∨
      resolveRole o1 o2 o3 = defaultRole) ∧
    resolveRole .errValue o2 o3 = resolveRole .notFound o2 o3 ∧
    resolveRole .thrown o2 o3 = defaultRole ∧
    resolveRole o1 .errValue o3 = resolveRole o1 .notFound o3 ∧
    (resolveRole o1 .thrown o3 = resolveRole o1 .notFound o3 ∨
      resolveRole o1 .thrown o3 = defaultRole) ∧
    resolveRole o1 o2 (fun _ => .errValue) = resolveRole o1 o2 (fun _ => .notFound) ∧
    (resolveRole o1 o2 (fun _ => .thrown) = resolveRole o1 o2 (fun _ => .notFound) ∨
      resolveRole o1 o2 (fun _ => .thrown) = defaultRole) := by
  refine ⟨resolveRole_shape o1 o2 o3, rfl, rfl, ?_, ?_, ?_, ?_⟩
  · cases o1 <;> rfl
  · left; cases o1 <;> rfl
  · cases o1 with
    | found r =>
      by_cases hr : r = AppRole.admin <;>
        simp [resolveRole, hr, fromAssignments_sec_err]
    | notFound => exact fromAssignments_sec_err o2
    | errValue => exact fromAssignments_sec_err o2
    | thrown => rfl
  · cases o1 with
    | found r =>
      by_cases hr : r = AppRole.admin
      · left; simp [resolveRole, hr]
      · rcases fromAssignments_sec_thrown o2 with h | h
        · left; simp [resolveRole, hr, h]
        · right; simp [resolveRole, hr, h]
    | notFound => exact fromAssignments_sec_thrown o2
    | errValue => exact fromAssignments_sec_thrown o2
    | thrown => left; rfl

/-- C3: on every descriptor the resolver can produce, the manager-or-above
capability of the Access Guard holds exactly for role `admin` (either
admin flavor) or role `manager` — hence not for role `user` — and the
guard, once loading has settled, renders the protected children exactly
when the capability holds and the fallback otherwise. -/
theorem manager_or_above_guard (o1 : Outcome AppRole)
    (o2 : Outcome AssignmentRow) (o3 : String → Outcome String) (sl : Bool) :
    hasAccess .manager (resolveRole o1 o2 o3) =
      (decide ((resolveRole o1 o2 o3).role = .admin) ||
        decide ((resolveRole o1 o2 o3).role = .manager)) ∧
    roleGuard .manager sl false (some (resolveRole o1 o2 o3)) =
      (if hasAccess .manager (resolveRole o1 o2 o3) then GuardOutput.children
        else GuardOutput.fallback) := by
  refine ⟨?_, roleGuard_render .manager sl (resolveRole o1 o2 o3)⟩
  rcases resolveRole_shape o1 o2 o3 with h | ⟨al, cid, h⟩ | h <;> rw [h]
  · rfl
  · cases al <;> rfl
  · rfl

/-- C4: with no admin row in `user_roles` and a license assignment
carrying `access_level` and a license whose organization lookup succeeds,
the resolver returns the assignment's access level as the role, source
`product_license_assignments`, `isRaynAdmin` false, `isClientAdmin` true
exactly when the access level is `admin`, and `customer_id` set to the
organization of the license. -/
theorem license_assignment_role (env : Env) (uid : String) (al : AppRole)
    (lid cid : String)
    (h1 : env.user_roles uid = .notFound)
    (h2 : env.product_license_assignments uid = .found ⟨some al, some lid⟩)
    (h3 : env.customer_product_licenses lid = .found cid) :
    getUserRole env uid =
      ⟨al, .product_license_assignments, false, decide (al = .admin), some cid⟩ := by
  simp [getUserRole, resolveRole, h1, h2, fromAssignments, resolveScope, h3]

theorem license_assignment_role_witness :
    getUserRole envClientAdmin "u2" =
      ⟨.admin, .product_license_assignments, false, true, some "org-9"⟩ :=
  license_assignment_role envClientAdmin "u2" .admin "L1" "org-9" rfl rfl rfl

/-- C5: every descriptor the resolver produces satisfies the data-model
invariants: the two admin flags are never both set; source `default`
forces role `user`, an absent `customer_id` and both flags clear; and
`isRaynAdmin` is set only with source `user_roles` and role `admin`. -/
theorem descriptor_invariants (env : Env) (uid : String) :
    ¬((getUserRole env uid).isRaynAdmin = true ∧
      (getUserRole env uid).isClientAdmin = true) ∧
    ((getUserRole env uid).source = .default →
      (getUserRole env uid).role = .user ∧
      (getUserRole env uid).customer_id = none ∧
      (getUserRole env uid).isRaynAdmin = false ∧
      (getUserRole env uid).isClientAdmin = false) ∧
    ((getUserRole env uid).isRaynAdmin = true →
      (getUserRole env uid).source = .user_roles ∧
      (getUserRole env uid).role = .admin) := by
  rcases getUserRole_shape env uid with h | ⟨al, cid, h⟩ | h <;> rw [h]
  · simp
  · simp
  · simp [defaultRole]

theorem descriptor_invariants_witness :
    (getUserRole envEmpty "u3").role = .user ∧
    (getUserRole envEmpty "u3").customer_id = none ∧
    (getUserRole envEmpty "u3").isRaynAdmin = false ∧
    (getUserRole envEmpty "u3").isClientAdmin = false :=
  (descriptor_invariants envEmpty "u3").2.1 rfl

/-- C6 counterexample: refresh A is issued, then refresh B; B's response
(the RAYN-admin descriptor) arrives first, then A's stale response (the
default descriptor).  After both settle the held descriptor is A's result
and not B's — the hook has no request token, so the claimed
last-request-wins ordering fails at this concrete interleaving. -/
theorem last_request_wins_counterexample :
    (fetchApply (fetchApply (fetchStart (fetchStart ⟨none, none, true, none⟩))
        ⟨.admin, .user_roles, true, false, none⟩) defaultRole).userRole =
      some defaultRole ∧
    (fetchApply (fetchApply (fetchStart (fetchStart ⟨none, none, true, none⟩))
        ⟨.admin, .user_roles, true, false, none⟩) defaultRole).userRole ≠
      some ⟨.admin, .user_roles, true, false, none⟩ := by
  decide

/-- C6 (amended): results are applied in response-arrival order — after
two overlapping refreshes whose responses arrive in the order B then A,
the held descriptor is always the last-arrived result A, whatever the
starting state and whichever request it belonged to. -/
theorem completion_order_wins (s : SessionState) (rA rB : UserRole) :
    (fetchApply (fetchApply (fetchStart (fetchStart s)) rB) rA).userRole =
      some rA ∧
    (fetchApply (fetchApply (fetchStart (fetchStart s)) rB) rA).actualUserRole =
      some rA :=
  ⟨rfl, rfl⟩

/-- C7 counterexample: a manager assignment whose license → organization
lookup throws lands in the resolver's catch, which returns the default
descriptor — demoting the result instead of keeping the assignment's
access level with `customer_id` absent, as the claim asserts. -/
theorem scope_lookup_thrown_counterexample :
    getUserRole envScopeThrown "u2" = defaultRole ∧
    getUserRole envScopeThrown "u2" ≠
      ⟨.manager, .product_license_assignments, false, false, none⟩ := by
  decide

/-- C7 (amended): when the secondary lookup fails by returning no row or
an error value, resolution still succeeds from the assignment's access
level with `customer_id` absent; but when the secondary lookup throws,
the whole resolution degrades to the default descriptor. -/
theorem scope_lookup_failure (env : Env) (uid : String) (al : AppRole)
    (lid : String)
    (h1 : env.user_roles uid = .notFound)
    (h2 : env.product_license_assignments uid = .found ⟨some al, some lid⟩) :
    ((env.customer_product_licenses lid = .notFound ∨
        env.customer_product_licenses lid = .errValue) →
      getUserRole env uid =
        ⟨al, .product_license_assignments, false, decide (al = .admin), none⟩) ∧
    (env.customer_product_licenses lid = .thrown →
      getUserRole env uid = defaultRole) := by
  constructor
  · intro h3
    rcases h3 with h3 | h3 <;>
      simp [getUserRole, resolveRole, h1, h2, fromAssignments, resolveScope, h3]
  · intro h3
    simp [getUserRole, resolveRole, h1, h2, fromAssignments, resolveScope, h3]

theorem scope_lookup_failure_witness :
    getUserRole envScopeErr "u2" =
      ⟨.manager, .product_license_assignments, false, false, none⟩ :=
  (scope_lookup_failure envScopeErr "u2" .manager "L1" rfl rfl).1 (Or.inr rfl)

/-- C8: with no record in either store, the resolver returns the default
descriptor — role `user`, source `default`, both admin flags false,
`customer_id` absent. -/
theorem default_role_fallback (env : Env) (uid : String)
    (h1 : env.user_roles uid = .notFound)
    (h2 : env.product_license_assignments uid = .notFound) :
    getUserRole env uid = ⟨.user, .default, false, false, none⟩ := by
  simp [getUserRole, resolveRole, h1, h2, fromAssignments, defaultRole]

theorem default_role_fallback_witness :
    getUserRole envEmpty "u4" = ⟨.user, .default, false, false, none⟩ :=
  default_role_fallback envEmpty "u4" rfl rfl

/-- C9 counterexample: with the debug override active (so the effective
descriptor is the override), invoking refresh is not a no-op — at this
concrete state it changes the held session state (both role fields are
rewritten from the default descriptor to the freshly resolved manager
descriptor) and it invokes the resolver once, contradicting the claim
that the observable state is left unchanged. -/
theorem override_refresh_counterexample :
    effectiveRole (some ⟨.admin, .user_roles, true, false, none⟩)
        ⟨some defaultRole, some defaultRole, false, none⟩ =
      some ⟨.admin, .user_roles, true, false, none⟩ ∧
    (fetchUserRole (some "u1") envManager
        ⟨some defaultRole, some defaultRole, false, none⟩).1 ≠
      ⟨some defaultRole, some defaultRole, false, none⟩ ∧
    (fetchUserRole (some "u1") envManager
        ⟨some defaultRole, some defaultRole, false, none⟩).2 = 1 := by
  decide

/-- C9 (amended): while the override is active, `currentDescriptor()`
returns the override descriptor for every held state; refresh still
re-invokes the Resolver and rewrites the underlying session state, but
the descriptor returned by `currentDescriptor()` is unchanged — it is
still the override, both before and after any refresh. -/
theorem override_effective_stable (d : UserRole) (s : SessionState)
    (u : Option String) (env : Env) :
    effectiveRole (some d) s = some d ∧
    effectiveRole (some d) (fetchUserRole u env s).1 = some d :=
  ⟨rfl, rfl⟩

/-- C10: with no authenticated user identifier, the fetch sets the held
role to null and loading to false without invoking the resolver, and all
five asynchronous capability checks return false with zero resolver
invocations, for every database environment. -/
theorem no_user_no_query (env : Env) (s : SessionState) (req : AppRole) :
    fetchUserRole none env s = (⟨none, s.actualUserRole, false, s.error⟩, 0) ∧
    checkRole none req env = (false, 0) ∧
    checkIsAdmin none env = (false, 0) ∧
    checkIsManager none env = (false, 0) ∧
    checkIsRaynAdmin none env = (false, 0) ∧
    checkIsClientAdmin none env = (false, 0) :=
  ⟨rfl, rfl, rfl, rfl, rfl, rfl⟩
